import Mathlib

/-!
Verification of sensor_logger.py (enviromental-raspberryPi).

Shallow embedding of the script.  The database store is a record of the
existing table names together with the rows of the `motion` and
`temperature` tables.  Each database round-trip (`conn.execute` +
`conn.commit`) may be interrupted by an exogenous fault (connection loss,
store rejection); that fault is injected as a `DbOutcome` argument, since
the Python function's behaviour is entirely determined by whether the
call raises.  Temperature readings are carried opaquely (modelled as
`Int`); the script performs no arithmetic on them.  Printed lines are
collected in a `List String` log, and resource/operation events in a
`List Event` trace.
-/

/-- One row of the `motion` table: synthetic auto-increment id,
timestamp text, motion flag (`GPIO.input` result). -/
structure MotionRow where
  id : Nat
  timestamp : String
  motion_detected : Nat
deriving DecidableEq, Repr

/-- One row of the `temperature` table. -/
structure TempRow where
  id : Nat
  timestamp : String
  temperature : Int
deriving DecidableEq, Repr

/-- The remote store: which tables exist, and the rows of the two tables. -/
structure Store where
  tables : List String
  motionRows : List MotionRow
  tempRows : List TempRow
deriving DecidableEq, Repr

/-- The empty store (fresh database). -/
def store0 : Store := ⟨[], [], []⟩

/-- Outcome of one execute+commit round-trip against the store: either it
succeeds, or it raises an exception carrying a message; `connectionLoss`
tags whether the fault is a connection-loss error (the code treats both
identically, but the spec distinguishes them). -/
inductive DbOutcome where
  | ok : DbOutcome
  | err (connectionLoss : Bool) (msg : String) : DbOutcome
deriving DecidableEq, Repr

/-- Observable events: resource acquisition/release and database
operation attempts.  `reconnectAttempt` would mark a call of
`sqlitecloud.connect` from inside the loop; the script contains no such
call, so no definition below ever emits it. -/
inductive Event where
  | acquireConnection : Event
  | acquireSensor : Event
  | acquireGpio : Event
  | releaseGpio : Event
  | releaseConnection : Event
  | reconnectAttempt : Event
  | insertTempAttempt (timestamp : String) : Event
  | insertMotionAttempt (timestamp : String) : Event
deriving DecidableEq, Repr

def isReconnect : Event → Bool
  | .reconnectAttempt => true
  | _ => false

def isTempAttempt : Event → Bool
  | .insertTempAttempt _ => true
  | _ => false

def isMotionAttempt : Event → Bool
  | .insertMotionAttempt _ => true
  | _ => false

def isInsertAttempt : Event → Bool
  | .insertTempAttempt _ => true
  | .insertMotionAttempt _ => true
  | _ => false

/-- Number of reconnection attempts recorded in a trace. -/
def countReconnect (evs : List Event) : Nat :=
  (evs.filter isReconnect).length

/-- The resources of the script: the SQLiteCloud connection (line 55),
the W1ThermSensor handle (line 130), the GPIO pin setup (lines 134-135). -/
inductive Resource where
  | connection : Resource
  | sensor : Resource
  | gpio : Resource
deriving DecidableEq, Repr

def acquiredResource : Event → Option Resource
  | .acquireConnection => some .connection
  | .acquireSensor => some .sensor
  | .acquireGpio => some .gpio
  | _ => none

def releasedResource : Event → Option Resource
  | .releaseGpio => some .gpio
  | .releaseConnection => some .connection
  | _ => none

/-- Sequence of resources acquired, in trace order. -/
def acquisitions (evs : List Event) : List Resource :=
  evs.filterMap acquiredResource

/-- Sequence of resources released, in trace order. -/
def releases (evs : List Event) : List Resource :=
  evs.filterMap releasedResource

/-- Resources the script explicitly releases at shutdown: `GPIO.cleanup()`
and `conn.close()`.  The w1therm sensor handle has no release call. -/
def hasExplicitRelease : Resource → Bool
  | .sensor => false
  | _ => true

/-- `CREATE TABLE IF NOT EXISTS name ...` against the store: adds the
table when absent, is a no-op when present, never touches rows. -/
def createTableIfNotExists (db : Store) (name : String) : Store :=
  if name ∈ db.tables then db else { db with tables := db.tables ++ [name] }

/-- `create_tables_if_not_exists` (sensor_logger.py lines 61-89): issues
the two CREATE TABLE IF NOT EXISTS statements and commits; on success
prints "Tables are ready", on any exception prints a failure message and
returns normally (the exception is swallowed). -/
def create_tables_if_not_exists (db : Store) (outcome : DbOutcome) :
    Store × List String :=
  match outcome with
  | .ok =>
      (createTableIfNotExists (createTableIfNotExists db "motion") "temperature",
       ["Tables are ready"])
  | .err _ m =>
      (db, ["Failed to create tables: " ++ m])

/-- The store state produced by a successful schema-ensure call. -/
def ensureSchema (db : Store) : Store :=
  (create_tables_if_not_exists db .ok).1

/-- `insert_motion` (lines 91-108): one INSERT + commit attempt; on
success appends exactly one row and prints a confirmation, on any
exception prints an error message and returns normally.  There is no
reconnection and no retry. -/
def insert_motion (db : Store) (outcome : DbOutcome) (motion_detected : Nat)
    (timestamp : String) : Store × List String × List Event :=
  match outcome with
  | .ok =>
      ({ db with motionRows :=
          db.motionRows ++ [⟨db.motionRows.length + 1, timestamp, motion_detected⟩] },
       ["Record inserted into motion table: " ++ timestamp ++
        ", Motion Detected: " ++ toString motion_detected],
       [.insertMotionAttempt timestamp])
  | .err _ m =>
      (db,
       ["An error occurred while inserting into motion table: " ++ m],
       [.insertMotionAttempt timestamp])

/-- `insert_temperature` (lines 110-127): one INSERT + commit attempt; on
success appends exactly one row and prints a confirmation, on any
exception prints an error message and returns normally.  There is no
reconnection and no retry. -/
def insert_temperature (db : Store) (outcome : DbOutcome) (temperature : Int)
    (timestamp : String) : Store × List String × List Event :=
  match outcome with
  | .ok =>
      ({ db with tempRows :=
          db.tempRows ++ [⟨db.tempRows.length + 1, timestamp, temperature⟩] },
       ["Record inserted into temperature table: " ++ timestamp ++
        ", Temperature: " ++ toString temperature],
       [.insertTempAttempt timestamp])
  | .err _ m =>
      (db,
       ["An error occurred while inserting into temperature table: " ++ m],
       [.insertTempAttempt timestamp])

deriving instance DecidableEq for Except

/-- Exogenous inputs of one loop iteration: whether a KeyboardInterrupt
arrives at this tick, the result of `sensor.get_temperature()` (value, or
the message of the exception it raises), the `GPIO.input(PIR_PIN)` value,
the `datetime.now().isoformat()` string, and the fault injections for the
two insert round-trips. -/
structure TickInput where
  interrupt : Bool
  sensor : Except String Int
  motion : Nat
  now : String
  tempOutcome : DbOutcome
  motionOutcome : DbOutcome
deriving DecidableEq, Repr

/-- One iteration of the inner loop body (lines 147-169), entered when no
KeyboardInterrupt is pending.  Reads the temperature (a raised exception
lands in the blanket `except Exception` which prints "Error: ..." and
falls through to the sleep), reads motion, takes the timestamp once, and
calls `insert_temperature` then `insert_motion` with that same timestamp.
Returns the new store, the printed lines, and the event trace. -/
def tick (db : Store) (inp : TickInput) : Store × List String × List Event :=
  match inp.sensor with
  | .error m => (db, ["Error: " ++ m], [])
  | .ok t =>
      let ts := inp.now
      let r1 := insert_temperature db inp.tempOutcome t ts
      let r2 := insert_motion r1.1 inp.motionOutcome inp.motion ts
      (r2.1,
       ("Temperature: " ++ toString t ++ " °C") :: (r1.2.1 ++ r2.2.1) ++
         [if inp.motion ≠ 0 then "Motion detected!" else "No motion"],
       r1.2.2 ++ r2.2.2)

/-- Result of running the sampling loop over a finite prefix of tick
inputs: final store, concatenated log and trace, and whether the loop was
terminated by a KeyboardInterrupt. -/
structure LoopResult where
  store : Store
  log : List String
  events : List Event
  interrupted : Bool
deriving DecidableEq, Repr

/-- The `while True` loop (lines 146-171) run over a finite list of tick
inputs.  A tick whose `interrupt` flag is set raises KeyboardInterrupt
(not a subclass of `Exception`, so it escapes the inner handler) and
terminates the loop; otherwise the body runs and the loop continues. -/
def runLoop (db : Store) : List TickInput → LoopResult
  | [] => ⟨db, [], [], false⟩
  | inp :: rest =>
      if inp.interrupt then ⟨db, [], [], true⟩
      else
        let r := tick db inp
        let k := runLoop r.1 rest
        ⟨k.store, r.2.1 ++ k.log, r.2.2 ++ k.events, k.interrupted⟩

/-- Environment configuration: `os.getenv` yields `none` when the
variable is unset; the script treats unset and empty alike (`if not X`). -/
structure Config where
  api_key : Option String
  database_url : Option String
  db_name : Option String
deriving DecidableEq, Repr

/-- Python truthiness of an optional string: false iff missing or empty. -/
def truthy : Option String → Bool
  | none => false
  | some s => !(s == "")

/-- The guard at lines 50-51: all three variables present and non-empty. -/
def configOk (c : Config) : Bool :=
  truthy c.api_key && truthy c.database_url && truthy c.db_name

/-- Terminal status of a run of the script over the modelled inputs:
either the process exited with a code, or the loop is still running. -/
inductive Final where
  | exited (code : Nat) : Final
  | running : Final
deriving DecidableEq, Repr

/-- Result of a whole program run. -/
structure ProgResult where
  final : Final
  log : List String
  events : List Event
  store : Store
deriving DecidableEq, Repr

/-- The module-level script (lines 44-178).  In order: the environment
check (an uncaught ValueError terminates the interpreter with exit code 1
and a traceback diagnostic); `sqlitecloud.connect` (on failure the
message is printed and `exit()` raises SystemExit(None), terminating with
exit code 0); sensor and GPIO acquisition; `create_tables_if_not_exists`
(any failure is printed and swallowed, execution continues); then the
loop.  On KeyboardInterrupt the handler prints "Quit" and the `finally`
block runs `GPIO.cleanup()` then `conn.close()`, after which the script
ends normally (exit code 0).  If the modelled tick inputs are exhausted
without an interrupt the loop is still running. -/
def program (c : Config) (connectOutcome schemaOutcome : DbOutcome)
    (db0 : Store) (ticks : List TickInput) : ProgResult :=
  if configOk c then
    match connectOutcome with
    | .err _ m =>
        { final := .exited 0,
          log := ["Failed to connect to SQLite Cloud: " ++ m],
          events := [],
          store := db0 }
    | .ok =>
        let s := create_tables_if_not_exists db0 schemaOutcome
        let r := runLoop s.1 ticks
        if r.interrupted then
          { final := .exited 0,
            log := ["Connected to SQLite Cloud"] ++ s.2 ++
              ["System Test (CTRL+C to exit)", "Ready"] ++ r.log ++
              ["Quit", "Cleaned up GPIO and closed database connection."],
            events := [.acquireConnection, .acquireSensor, .acquireGpio] ++
              r.events ++ [.releaseGpio, .releaseConnection],
            store := r.store }
        else
          { final := .running,
            log := ["Connected to SQLite Cloud"] ++ s.2 ++
              ["System Test (CTRL+C to exit)", "Ready"] ++ r.log,
            events := [.acquireConnection, .acquireSensor, .acquireGpio] ++
              r.events,
            store := r.store }
  else
    { final := .exited 1,
      log := ["ValueError: Missing environment variables for API_KEY, DATABASE_URL, or DB_NAME"],
      events := [],
      store := db0 }

/-! ## Helper lemmas -/

theorem tick_events_shape (db : Store) (inp : TickInput) :
    (tick db inp).2.2 = [] ∨
    (tick db inp).2.2 = [.insertTempAttempt inp.now, .insertMotionAttempt inp.now] := by
  cases hs : inp.sensor with
  | error m => left; simp [tick, hs]
  | ok t =>
      right
      cases h1 : inp.tempOutcome <;> cases h2 : inp.motionOutcome <;>
        simp [tick, hs, h1, h2, insert_temperature, insert_motion]

theorem runLoop_not_interrupted (ticks : List TickInput) :
    ∀ db : Store, (∀ inp ∈ ticks, inp.interrupt = false) →
      (runLoop db ticks).interrupted = false := by
  induction ticks with
  | nil => intro db _; rfl
  | cons a rest ih =>
      intro db h
      have ha : a.interrupt = false := h a (List.mem_cons_self a rest)
      simp only [runLoop, ha, Bool.false_eq_true, if_false]
      exact ih _ (fun x hx => h x (List.mem_cons_of_mem a hx))

theorem runLoop_interrupted_of_mem (ticks : List TickInput) :
    ∀ db : Store, (∃ inp ∈ ticks, inp.interrupt = true) →
      (runLoop db ticks).interrupted = true := by
  induction ticks with
  | nil => intro db h; simp at h
  | cons a rest ih =>
      intro db h
      by_cases ha : a.interrupt = true
      · simp [runLoop, ha]
      · have ha' : a.interrupt = false := by
          cases hb : a.interrupt
          · rfl
          · exact absurd hb ha
        simp only [runLoop, ha', Bool.false_eq_true, if_false]
        rcases h with ⟨x, hx, hxi⟩
        rcases List.mem_cons.mp hx with rfl | hx'
        · exact absurd hxi ha
        · exact ih _ ⟨x, hx', hxi⟩

theorem tick_no_resource_events (db : Store) (inp : TickInput) :
    acquisitions (tick db inp).2.2 = [] ∧ releases (tick db inp).2.2 = [] := by
  rcases tick_events_shape db inp with h | h <;>
    simp [h, acquisitions, releases, acquiredResource, releasedResource]

theorem runLoop_no_resource_events (ticks : List TickInput) :
    ∀ db : Store,
      acquisitions (runLoop db ticks).events = [] ∧
      releases (runLoop db ticks).events = [] := by
  induction ticks with
  | nil => intro db; constructor <;> rfl
  | cons a rest ih =>
      intro db
      by_cases ha : a.interrupt = true
      · simp [runLoop, ha, acquisitions, releases]
      · have ha' : a.interrupt = false := by
          cases hb : a.interrupt
          · rfl
          · exact absurd hb ha
        simp only [runLoop, ha', Bool.false_eq_true, if_false]
        have ht := tick_no_resource_events db a
        have hr := ih (tick db a).1
        constructor
        · simp [acquisitions, List.filterMap_append] at *
          exact ⟨ht.1, hr.1⟩
        · simp [releases, List.filterMap_append] at *
          exact ⟨ht.2, hr.2⟩

/-! ## Claim theorems -/

/-- Claim C1: for a tick in which the sensor read succeeds and both
inserts succeed, exactly one row is appended to the temperature table and
exactly one row to the motion table, both rows carry the same timestamp
`now` (taken once for the tick), the tables are otherwise untouched, and
the temperature insert is attempted before the motion insert. -/
theorem C1_successful_tick_appends_paired_rows (db : Store) (i : Bool)
    (t : Int) (mo : Nat) (now : String) :
    (tick db ⟨i, .ok t, mo, now, .ok, .ok⟩).1.tempRows =
      db.tempRows ++ [⟨db.tempRows.length + 1, now, t⟩] ∧
    (tick db ⟨i, .ok t, mo, now, .ok, .ok⟩).1.motionRows =
      db.motionRows ++ [⟨db.motionRows.length + 1, now, mo⟩] ∧
    (tick db ⟨i, .ok t, mo, now, .ok, .ok⟩).1.tables = db.tables ∧
    (tick db ⟨i, .ok t, mo, now, .ok, .ok⟩).2.2 =
      [.insertTempAttempt now, .insertMotionAttempt now] := by
  refine ⟨?_, ?_, ?_, ?_⟩ <;> simp [tick, insert_temperature, insert_motion]

/-- Claim C3: for a tick in which the sensor read fails, zero rows are
appended to either table (the store is returned unchanged), persistence
is skipped without any insert attempt or retry (the event trace of the
tick is empty), and the loop proceeds to the remaining ticks exactly as
if this tick had not occurred, without terminating. -/
theorem C3_sensor_failure_skips_tick (db : Store) (m : String) (mo : Nat)
    (now : String) (o1 o2 : DbOutcome) (rest : List TickInput) :
    tick db ⟨false, .error m, mo, now, o1, o2⟩ = (db, ["Error: " ++ m], []) ∧
    (runLoop db (⟨false, .error m, mo, now, o1, o2⟩ :: rest)).store =
      (runLoop db rest).store ∧
    (runLoop db (⟨false, .error m, mo, now, o1, o2⟩ :: rest)).events =
      (runLoop db rest).events ∧
    (runLoop db (⟨false, .error m, mo, now, o1, o2⟩ :: rest)).interrupted =
      (runLoop db rest).interrupted := by
  refine ⟨?_, ?_, ?_, ?_⟩ <;> simp [runLoop, tick]

/-- Claim C8: every error path of schema creation, temperature insert,
motion insert, and the per-tick sensor read prints a diagnostic line; no
error path completes with an empty log. -/
theorem C8_every_error_is_logged :
    (∀ (db : Store) (b : Bool) (m : String),
      (create_tables_if_not_exists db (.err b m)).2 =
        ["Failed to create tables: " ++ m]) ∧
    (∀ (db : Store) (b : Bool) (m : String) (t : Int) (ts : String),
      (insert_temperature db (.err b m) t ts).2.1 =
        ["An error occurred while inserting into temperature table: " ++ m]) ∧
    (∀ (db : Store) (b : Bool) (m : String) (v : Nat) (ts : String),
      (insert_motion db (.err b m) v ts).2.1 =
        ["An error occurred while inserting into motion table: " ++ m]) ∧
    (∀ (db : Store) (i : Bool) (m : String) (mo : Nat) (now : String)
        (o1 o2 : DbOutcome),
      (tick db ⟨i, .error m, mo, now, o1, o2⟩).2.1 = ["Error: " ++ m]) := by
  refine ⟨?_, ?_, ?_, ?_⟩ <;> intros <;>
    simp [create_tables_if_not_exists, insert_temperature, insert_motion, tick]

/-- Claim C10: the insert operations never propagate an error to the
tick: whatever the outcomes of the two insert round-trips, the tick
completes and both inserts are attempted (temperature first, with the
one shared timestamp); in particular, when the temperature insert fails
and the motion insert succeeds, no temperature row is appended but a
motion row with the same timestamp is committed, and the temperature
error is logged. -/
theorem C10_insert_errors_contained (db : Store) (i : Bool) (t : Int)
    (mo : Nat) (now : String) (b : Bool) (m : String) :
    (∀ o1 o2 : DbOutcome,
      (tick db ⟨i, .ok t, mo, now, o1, o2⟩).2.2 =
        [.insertTempAttempt now, .insertMotionAttempt now]) ∧
    (tick db ⟨i, .ok t, mo, now, .err b m, .ok⟩).1.tempRows = db.tempRows ∧
    (tick db ⟨i, .ok t, mo, now, .err b m, .ok⟩).1.motionRows =
      db.motionRows ++ [⟨db.motionRows.length + 1, now, mo⟩] ∧
    ("An error occurred while inserting into temperature table: " ++ m) ∈
      (tick db ⟨i, .ok t, mo, now, .err b m, .ok⟩).2.1 := by
  refine ⟨?_, ?_, ?_, ?_⟩
  · intro o1 o2
    cases o1 <;> cases o2 <;> simp [tick, insert_temperature, insert_motion]
  · simp [tick, insert_temperature, insert_motion]
  · simp [tick, insert_temperature, insert_motion]
  · simp [tick, insert_temperature, insert_motion]

/-- Claim C2 counterexample: in this concrete tick the temperature insert
fails with a connection-loss error, yet the script attempts zero
reconnections — the claim requires exactly one — and issues the failed
insert exactly once, with no retry. -/
theorem C2_counterexample :
    countReconnect
      (tick store0 ⟨false, .ok 21, 1, "2024-01-01T00:00:00",
        .err true "connection lost", .ok⟩).2.2 = 0 ∧
    ¬ countReconnect
      (tick store0 ⟨false, .ok 21, 1, "2024-01-01T00:00:00",
        .err true "connection lost", .ok⟩).2.2 = 1 ∧
    ((tick store0 ⟨false, .ok 21, 1, "2024-01-01T00:00:00",
        .err true "connection lost", .ok⟩).2.2.filter isTempAttempt).length
      = 1 := by
  decide

/-- Claim C2 as amended: when an insert fails within a tick — with a
connection-loss error or any other error — the script attempts no
reconnection and does not retry the insert (the failed insert is issued
exactly once); the failed insert's data is dropped, the error is printed,
and the tick completes. -/
theorem C2_amended_no_reconnect_no_retry (db : Store) (inp : TickInput)
    (t : Int) (hs : inp.sensor = .ok t) :
    (∀ b m, inp.tempOutcome = .err b m →
      countReconnect (tick db inp).2.2 = 0 ∧
      ((tick db inp).2.2.filter isTempAttempt).length = 1 ∧
      ("An error occurred while inserting into temperature table: " ++ m) ∈
        (tick db inp).2.1 ∧
      (tick db inp).1.tempRows = db.tempRows) ∧
    (∀ b m, inp.motionOutcome = .err b m →
      countReconnect (tick db inp).2.2 = 0 ∧
      ((tick db inp).2.2.filter isMotionAttempt).length = 1 ∧
      ("An error occurred while inserting into motion table: " ++ m) ∈
        (tick db inp).2.1 ∧
      (tick db inp).1.motionRows = db.motionRows) := by
  constructor
  · intro b m h1
    cases h2 : inp.motionOutcome <;>
      simp [tick, hs, h1, h2, insert_temperature, insert_motion,
        countReconnect, isReconnect, isTempAttempt]
  · intro b m h2
    cases h1 : inp.tempOutcome <;>
      simp [tick, hs, h1, h2, insert_temperature, insert_motion,
        countReconnect, isReconnect, isMotionAttempt]

/-- Claim C2 amended, witnessed at a concrete input. -/
theorem C2_amended_witness :
    countReconnect
      (tick store0 ⟨false, .ok 21, 1, "t0", .err true "gone", .ok⟩).2.2 = 0 ∧
    (tick store0 ⟨false, .ok 21, 1, "t0", .err true "gone", .ok⟩).1.tempRows =
      store0.tempRows := by
  have h := C2_amended_no_reconnect_no_retry store0
    ⟨false, .ok 21, 1, "t0", .err true "gone", .ok⟩ 21 rfl
  have h1 := h.1 true "gone" rfl
  exact ⟨h1.1, h1.2.2.2⟩

theorem createTable_mem (db : Store) (n : String) :
    n ∈ (createTableIfNotExists db n).tables := by
  unfold createTableIfNotExists
  by_cases h : n ∈ db.tables
  · simp [h]
  · simp [h]

theorem createTable_mono (db : Store) (n x : String) (hx : x ∈ db.tables) :
    x ∈ (createTableIfNotExists db n).tables := by
  unfold createTableIfNotExists
  by_cases h : n ∈ db.tables
  · simp [h, hx]
  · simp [h, hx]

theorem createTable_of_mem (db : Store) (n : String) (h : n ∈ db.tables) :
    createTableIfNotExists db n = db := by
  simp [createTableIfNotExists, h]

theorem createTable_rows (db : Store) (n : String) :
    (createTableIfNotExists db n).motionRows = db.motionRows ∧
    (createTableIfNotExists db n).tempRows = db.tempRows := by
  unfold createTableIfNotExists
  by_cases h : n ∈ db.tables <;> simp [h]

theorem createTable_nodup (db : Store) (n : String) (h : db.tables.Nodup) :
    (createTableIfNotExists db n).tables.Nodup := by
  unfold createTableIfNotExists
  by_cases hm : n ∈ db.tables
  · simp [hm, h]
  · simp only [hm, if_false]
    simp [List.nodup_append, h, hm]

/-- Claim C5: schema-ensure is idempotent: running it a second time from
any store state (with duplicate-free table names) returns the store of
the first run unchanged, the second run takes the success path (its log
is the success message, not an error), table names stay duplicate-free,
and no existing rows are altered by either run. -/
theorem C5_schema_ensure_idempotent (db : Store) (h : db.tables.Nodup) :
    ensureSchema (ensureSchema db) = ensureSchema db ∧
    (create_tables_if_not_exists (ensureSchema db) .ok).2 =
      ["Tables are ready"] ∧
    (ensureSchema db).tables.Nodup ∧
    (ensureSchema db).motionRows = db.motionRows ∧
    (ensureSchema db).tempRows = db.tempRows := by
  have hm1 : "motion" ∈ (createTableIfNotExists db "motion").tables :=
    createTable_mem db "motion"
  have hm2 : "motion" ∈ (ensureSchema db).tables :=
    createTable_mono _ "temperature" "motion" hm1
  have ht2 : "temperature" ∈ (ensureSchema db).tables :=
    createTable_mem _ "temperature"
  refine ⟨?_, rfl, ?_, ?_, ?_⟩
  · show createTableIfNotExists
      (createTableIfNotExists (ensureSchema db) "motion") "temperature" =
        ensureSchema db
    rw [createTable_of_mem _ _ hm2, createTable_of_mem _ _ ht2]
  · exact createTable_nodup _ _ (createTable_nodup _ _ h)
  · show (createTableIfNotExists (createTableIfNotExists db "motion")
      "temperature").motionRows = db.motionRows
    rw [(createTable_rows _ _).1, (createTable_rows _ _).1]
  · show (createTableIfNotExists (createTableIfNotExists db "motion")
      "temperature").tempRows = db.tempRows
    rw [(createTable_rows _ _).2, (createTable_rows _ _).2]

/-- Claim C5, witnessed at the empty store. -/
theorem C5_witness :
    store0.tables.Nodup ∧
    ensureSchema (ensureSchema store0) = ensureSchema store0 :=
  ⟨by simp [store0], (C5_schema_ensure_idempotent store0 (by simp [store0])).1⟩

theorem acquisitions_append (l1 l2 : List Event) :
    acquisitions (l1 ++ l2) = acquisitions l1 ++ acquisitions l2 := by
  simp [acquisitions]

theorem releases_append (l1 l2 : List Event) :
    releases (l1 ++ l2) = releases l1 ++ releases l2 := by
  simp [releases]

theorem program_events_interrupted (c : Config) (so : DbOutcome)
    (db0 : Store) (ticks : List TickInput) (hc : configOk c = true)
    (hi : ∃ inp ∈ ticks, inp.interrupt = true) :
    (program c .ok so db0 ticks).events =
      ([Event.acquireConnection, Event.acquireSensor, Event.acquireGpio] ++
        (runLoop (create_tables_if_not_exists db0 so).1 ticks).events) ++
        [Event.releaseGpio, Event.releaseConnection] ∧
    (program c .ok so db0 ticks).final = .exited 0 := by
  have hint := runLoop_interrupted_of_mem ticks
    ((create_tables_if_not_exists db0 so).1) hi
  constructor <;> simp [program, hc, hint]

/-- Claim C4: no per-tick failure terminates the sampling loop: for any
valid configuration, a successful initial connection, any schema outcome,
and any finite sequence of ticks carrying arbitrary sensor failures and
insert failures but no external interrupt, the program has not reached a
terminal state — the loop is still running after every modelled tick, so
the terminal state can only be reached via the external interrupt. -/
theorem C4_loop_survives_per_tick_errors (c : Config) (so : DbOutcome)
    (db0 : Store) (ticks : List TickInput)
    (hc : configOk c = true)
    (hni : ∀ inp ∈ ticks, inp.interrupt = false) :
    (program c .ok so db0 ticks).final = .running := by
  have hint := runLoop_not_interrupted ticks
    ((create_tables_if_not_exists db0 so).1) hni
  simp [program, hc, hint]

/-- Claim C4, witnessed on a run whose ticks contain a sensor failure and
a double insert failure. -/
theorem C4_witness :
    (program ⟨some "k", some "u", some "d"⟩ .ok (.err false "perm") store0
      [⟨false, .error "sensor broke", 0, "t1", .ok, .ok⟩,
       ⟨false, .ok 20, 1, "t2", .err true "gone", .err false "bad"⟩]).final =
      .running :=
  C4_loop_survives_per_tick_errors _ _ _ _ (by decide) (by decide)

/-- Claim C6: when any of API_KEY, DATABASE_URL, DB_NAME is missing or
empty, the run terminates with exit code 1 (non-zero) and its event trace
is empty: no connection is opened and no sensor or GPIO handle is
acquired before the failure. -/
theorem C6_missing_config_fails_before_acquisition (c : Config)
    (co so : DbOutcome) (db0 : Store) (ticks : List TickInput)
    (hc : configOk c = false) :
    (program c co so db0 ticks).final = .exited 1 ∧
    (program c co so db0 ticks).events = [] ∧
    acquisitions (program c co so db0 ticks).events = [] := by
  refine ⟨?_, ?_, ?_⟩ <;> simp [program, hc, acquisitions]

/-- Claim C6, witnessed with an empty API_KEY. -/
theorem C6_witness :
    (program ⟨some "", some "u", some "d"⟩ .ok .ok store0 []).final =
      .exited 1 ∧
    (program ⟨some "", some "u", some "d"⟩ .ok .ok store0 []).events = [] := by
  have h := C6_missing_config_fails_before_acquisition
    ⟨some "", some "u", some "d"⟩ .ok .ok store0 [] (by decide)
  exact ⟨h.1, h.2.1⟩

/-- Claim C7 counterexample: with a valid configuration, a schema-
creation failure at startup does not terminate the process — the run
continues into the loop (`running`), the claim requires termination; and
an initial-connection failure exits with code 0, not a non-zero code. -/
theorem C7_counterexample :
    (program ⟨some "k", some "u", some "d"⟩ .ok
      (.err false "permission denied") store0 []).final = .running ∧
    "Failed to create tables: permission denied" ∈
      (program ⟨some "k", some "u", some "d"⟩ .ok
        (.err false "permission denied") store0 []).log ∧
    (program ⟨some "k", some "u", some "d"⟩ (.err false "network down") .ok
      store0 []).final = .exited 0 := by
  decide

/-- Claim C7 as amended: a configuration error terminates the process
with exit code 1 after a diagnostic; an initial-connection failure prints
a diagnostic and terminates with exit code 0; a schema-creation failure
at startup prints a diagnostic but does not terminate — the run proceeds
into the sampling loop. -/
theorem C7_amended_startup_error_behaviour :
    (∀ (c : Config) (co so : DbOutcome) (db0 : Store)
        (ticks : List TickInput), configOk c = false →
      (program c co so db0 ticks).final = .exited 1 ∧
      (program c co so db0 ticks).log ≠ []) ∧
    (∀ (c : Config) (b : Bool) (m : String) (so : DbOutcome) (db0 : Store)
        (ticks : List TickInput), configOk c = true →
      (program c (.err b m) so db0 ticks).final = .exited 0 ∧
      ("Failed to connect to SQLite Cloud: " ++ m) ∈
        (program c (.err b m) so db0 ticks).log) ∧
    (∀ (c : Config) (b : Bool) (m : String) (db0 : Store)
        (ticks : List TickInput), configOk c = true →
      (∀ inp ∈ ticks, inp.interrupt = false) →
      (program c .ok (.err b m) db0 ticks).final = .running ∧
      ("Failed to create tables: " ++ m) ∈
        (program c .ok (.err b m) db0 ticks).log) := by
  refine ⟨?_, ?_, ?_⟩
  · intro c co so db0 ticks hc
    constructor <;> simp [program, hc]
  · intro c b m so db0 ticks hc
    constructor <;> simp [program, hc]
  · intro c b m db0 ticks hc hni
    have hint := runLoop_not_interrupted ticks db0 hni
    constructor <;>
      simp [program, hc, create_tables_if_not_exists, hint]

/-- Claim C7 amended, witnessed on the three startup-error branches. -/
theorem C7_amended_witness :
    (program ⟨none, some "u", some "d"⟩ .ok .ok store0 []).final =
      .exited 1 ∧
    (program ⟨some "k", some "u", some "d"⟩ (.err true "down") .ok
      store0 []).final = .exited 0 ∧
    (program ⟨some "k", some "u", some "d"⟩ .ok (.err false "denied")
      store0 []).final = .running := by
  refine ⟨(C7_amended_startup_error_behaviour.1 _ .ok .ok store0 []
      (by decide)).1,
    (C7_amended_startup_error_behaviour.2.1 _ true "down" .ok store0 []
      (by decide)).1,
    (C7_amended_startup_error_behaviour.2.2 _ false "denied" store0 []
      (by decide) (by decide)).1⟩

/-- Claim C9: on the external interrupt the run terminates with exit code
0 after a graceful shutdown: GPIO is cleaned up and the connection
closed, the release sequence is the reverse of the acquisition sequence
restricted to the resources that have an explicit release call (the
w1therm sensor handle has none), and the connection — acquired first —
is closed last. -/
theorem C9_graceful_shutdown (c : Config) (so : DbOutcome) (db0 : Store)
    (ticks : List TickInput)
    (hc : configOk c = true)
    (hi : ∃ inp ∈ ticks, inp.interrupt = true) :
    (program c .ok so db0 ticks).final = .exited 0 ∧
    acquisitions (program c .ok so db0 ticks).events =
      [.connection, .sensor, .gpio] ∧
    releases (program c .ok so db0 ticks).events = [.gpio, .connection] ∧
    releases (program c .ok so db0 ticks).events =
      ((acquisitions (program c .ok so db0 ticks).events).filter
        hasExplicitRelease).reverse ∧
    (releases (program c .ok so db0 ticks).events).getLast? =
      some .connection := by
  obtain ⟨hev, hfin⟩ := program_events_interrupted c so db0 ticks hc hi
  have hnr := runLoop_no_resource_events ticks
    ((create_tables_if_not_exists db0 so).1)
  have ha : acquisitions (program c .ok so db0 ticks).events =
      [.connection, .sensor, .gpio] := by
    rw [hev, acquisitions_append, acquisitions_append, hnr.1]
    decide
  have hr : releases (program c .ok so db0 ticks).events =
      [.gpio, .connection] := by
    rw [hev, releases_append, releases_append, hnr.2]
    decide
  refine ⟨hfin, ha, hr, ?_, ?_⟩
  · rw [ha, hr]; decide
  · rw [hr]; decide

/-- Claim C9, witnessed on a run interrupted at its first tick. -/
theorem C9_witness :
    (program ⟨some "k", some "u", some "d"⟩ .ok .ok store0
      [⟨true, .ok 0, 0, "t", .ok, .ok⟩]).final = .exited 0 ∧
    releases (program ⟨some "k", some "u", some "d"⟩ .ok .ok store0
      [⟨true, .ok 0, 0, "t", .ok, .ok⟩]).events = [.gpio, .connection] := by
  have h := C9_graceful_shutdown ⟨some "k", some "u", some "d"⟩ .ok store0
    [⟨true, .ok 0, 0, "t", .ok, .ok⟩] (by decide)
    ⟨⟨true, .ok 0, 0, "t", .ok, .ok⟩, by decide, rfl⟩
  exact ⟨h.1, h.2.2.1⟩
